import Mathlib

/-!
Shallow embedding of the Picterra JS API client (`src/unnamed/part_004`,
with the compiled revision `src/dist/Client.js` where noted) and proofs
about its poller, staged-upload flows, validation and pagination.

HTTP traffic is modelled by response oracles: a flow takes the responses
the server would give and returns the outcome together with the trace of
requests and sleeps it performs.  JS numbers are modelled as `Rat`,
JS exceptions as an `Except JsError` result, and the unbounded `while`
loops as fuel-indexed recursions whose `none` outcome means "the loop is
still running after consuming the given fuel".
-/

namespace Picterra


/-- Errors thrown by the client.  `apiError` is the `APIError` class
(message plus raw body text), `validationError` the `ValidationError`
class, and `typeError` a JavaScript `TypeError` (e.g. assigning a
property of `undefined`). -/
inductive JsError where
  | apiError (message : String) (body : String)
  | validationError (message : String)
  | typeError (message : String)
  deriving DecidableEq, Repr

/-- An observable action of the client: an HTTP request (path and method)
or a sleep of the given number of seconds. -/
inductive Event where
  | request (path : String) (method : String)
  | sleep (seconds : Rat)
  deriving DecidableEq, Repr

/-- An HTTP response as the client sees it: status code, raw body text,
and the value `response.json()` would produce, typed per endpoint. -/
structure Response (α : Type) where
  status : Nat
  bodyText : String
  body : α
  deriving DecidableEq, Repr

/-- The fetch API's `response.ok`: status code in the 2xx range. -/
def Response.ok {α : Type} (r : Response α) : Bool :=
  200 ≤ r.status && r.status ≤ 299

/-- Embedding of `checkResponse` from the source: if `!response.ok`, read the body as
text and throw `APIError` with the status code in the message. -/
def checkResponse {α : Type} (r : Response α) : Except JsError Unit :=
  if !r.ok then
    .error (.apiError ("Error from API: status code " ++ toString r.status) r.bodyText)
  else
    .ok ()

/-- JSON body of `GET /operations/{id}/`: the `status` field. -/
structure OpBody where
  status : String
  deriving DecidableEq, Repr

/-- Outcome of the polling loop body once it decides. -/
inductive PollResult where
  | completed
  | threw (e : JsError)
  deriving DecidableEq, Repr

/-- One rendition of the `while (true)` loop of
`_waitUntilOperationCompletes`, with `fuel` bounding how many iterations
we unfold: `none` means the loop was still running after `fuel`
iterations.  `server k` is the response to the `k`-th status query. -/
def waitLoop (server : Nat → Response OpBody) (operationId : String) (pollInterval : Rat) :
    Nat → Nat → Option PollResult × List Event
  | 0, _ => (none, [])
  | fuel + 1, k =>
    let r := server k
    let ev := Event.request ("/operations/" ++ operationId ++ "/") "GET"
    match checkResponse r with
    | .error e => (some (.threw e), [ev])
    | .ok _ =>
      if r.body.status = "success" then
        (some .completed, [ev])
      else if r.body.status = "failed" then
        (some (.threw (.apiError ("Operation " ++ operationId ++ " failed.") "")), [ev])
      else
        let rest := waitLoop server operationId pollInterval fuel (k + 1)
        (rest.1, ev :: Event.sleep pollInterval :: rest.2)

/-- Embedding of `_waitUntilOperationCompletes` from the source: sleep a tenth of the
poll interval, then poll `/operations/{id}/` until `success` (return),
`failed` (throw `APIError` naming the operation), or a non-2xx response
(throw via `checkResponse`).  No timeout of any kind is consulted. -/
def waitUntilOperationCompletes (server : Nat → Response OpBody) (operationId : String)
    (pollInterval : Rat) (fuel : Nat) : Option PollResult × List Event :=
  let rest := waitLoop server operationId pollInterval fuel 0
  (rest.1, Event.sleep (pollInterval * (1 / 10)) :: rest.2)

/-- A status response that is 2xx and neither `success` nor `failed`. -/
def nonTerminal (r : Response OpBody) : Prop :=
  r.ok = true ∧ r.body.status ≠ "success" ∧ r.body.status ≠ "failed"

instance (r : Response OpBody) : Decidable (nonTerminal r) := by
  unfold nonTerminal; infer_instance

/-- A server that answers every status query with 2xx `running`. -/
def alwaysRunning : Nat → Response OpBody := fun _ =>
  { status := 200, bodyText := "", body := { status := "running" } }

/-- Trace of the loop from the first of `n` non-terminal queries up to and
including the final decisive query. -/
def midTrace (operationId : String) (pollInterval : Rat) : Nat → List Event
  | 0 => [Event.request ("/operations/" ++ operationId ++ "/") "GET"]
  | n + 1 =>
    Event.request ("/operations/" ++ operationId ++ "/") "GET" ::
      Event.sleep pollInterval :: midTrace operationId pollInterval n

/-- Number of HTTP requests in a trace. -/
def requestCount : List Event → Nat
  | [] => 0
  | Event.request _ _ :: t => requestCount t + 1
  | Event.sleep _ :: t => requestCount t

/-- Server answering `running` twice, then `success`. -/
def serverTwoRunningThenSuccess : Nat → Response OpBody := fun k =>
  if k < 2 then { status := 200, bodyText := "", body := { status := "running" } }
  else { status := 200, bodyText := "", body := { status := "success" } }

/-- Server answering `running` once, then `failed`. -/
def serverOneRunningThenFailed : Nat → Response OpBody := fun k =>
  if k < 1 then { status := 200, bodyText := "", body := { status := "running" } }
  else { status := 200, bodyText := "", body := { status := "failed" } }

/-- JSON body of `POST /rasters/upload/file/`. -/
structure RasterInitBody where
  upload_url : String
  raster_id : String
  deriving DecidableEq, Repr

/-- JSON body of the detection-area / annotation initiate endpoints. -/
structure UploadInitBody where
  upload_url : String
  upload_id : String
  deriving DecidableEq, Repr

/-- JSON body of a commit endpoint. -/
structure CommitBody where
  operation_id : String
  poll_interval : Rat
  deriving DecidableEq, Repr

/-- The responses a staged-upload flow will receive: initiate, storage
PUT, commit, then operation polling. -/
structure StagedServer (β : Type) where
  initiate : Response β
  transfer : Response Unit
  commit : Response CommitBody
  operations : Nat → Response OpBody

/-- Lift the poller's outcome to a flow outcome returning `a`. -/
def pollOutcome {α : Type} (a : α) : Option PollResult → Option (Except JsError α)
  | none => none
  | some .completed => some (.ok a)
  | some (.threw e) => some (.error e)

/-- Embedding of `uploadRaster` from the source.  Faithful detail: the initiate
response's body is read with `response.json()` WITHOUT a prior
`checkResponse` (the source has no check between the initiate request
and the body read); the storage PUT and the commit are each followed by
`checkResponse`; on success the poller runs on the commit body's
`operation_id` / `poll_interval` and the raster id is returned. -/
def uploadRaster (srv : StagedServer RasterInitBody) (fuel : Nat) :
    Option (Except JsError String) × List Event :=
  let evInit := Event.request "/rasters/upload/file/" "POST"
  let data := srv.initiate.body
  let uploadUrl := data.upload_url
  let rasterId := data.raster_id
  let evPut := Event.request uploadUrl "PUT"
  match checkResponse srv.transfer with
  | .error e => (some (.error e), [evInit, evPut])
  | .ok _ =>
    let evCommit := Event.request ("/rasters/" ++ rasterId ++ "/commit/") "POST"
    match checkResponse srv.commit with
    | .error e => (some (.error e), [evInit, evPut, evCommit])
    | .ok _ =>
      let cdata := srv.commit.body
      let poll := waitUntilOperationCompletes srv.operations cdata.operation_id
        cdata.poll_interval fuel
      (pollOutcome rasterId poll.1, evInit :: evPut :: evCommit :: poll.2)

/-- Embedding of `setRasterDetectionAreaFromFile` from the source: initiate (checked),
storage PUT (checked), commit (checked), poll; returns `true`. -/
def setRasterDetectionAreaFromFile (srv : StagedServer UploadInitBody) (rasterId : String)
    (fuel : Nat) : Option (Except JsError Bool) × List Event :=
  let evInit := Event.request ("/rasters/" ++ rasterId ++ "/detection_areas/upload/file/")
    "POST"
  match checkResponse srv.initiate with
  | .error e => (some (.error e), [evInit])
  | .ok _ =>
    let data := srv.initiate.body
    let uploadUrl := data.upload_url
    let uploadId := data.upload_id
    let evPut := Event.request uploadUrl "PUT"
    match checkResponse srv.transfer with
    | .error e => (some (.error e), [evInit, evPut])
    | .ok _ =>
      let evCommit := Event.request
        ("/rasters/" ++ rasterId ++ "/detection_areas/upload/" ++ uploadId ++ "/commit/")
        "POST"
      match checkResponse srv.commit with
      | .error e => (some (.error e), [evInit, evPut, evCommit])
      | .ok _ =>
        let cdata := srv.commit.body
        let poll := waitUntilOperationCompletes srv.operations cdata.operation_id
          cdata.poll_interval fuel
        (pollOutcome true poll.1, evInit :: evPut :: evCommit :: poll.2)

/-- JS `String.prototype.toLowerCase` (ASCII letters, as in
`Char.toLower`), written over the string's character list so that it
evaluates by `decide` / `rfl`. -/
def jsToLower (s : String) : String := String.mk (s.data.map Char.toLower)

/-- The allowed annotation types of `setAnnotations`. -/
def annotationTypes : List String :=
  ["outline", "training_area", "testing_area", "validation_area"]

/-- Embedding of `setAnnotations` from the source: validate the annotation type
(lowercased) against `annotationTypes` before any request, then
initiate (checked), storage PUT of the JSON payload (checked), commit
(checked), poll; returns `true`. -/
def setAnnotations (srv : StagedServer UploadInitBody) (detectorId rasterId : String)
    (annotationType : String) (fuel : Nat) : Option (Except JsError Bool) × List Event :=
  let a := jsToLower annotationType
  if !annotationTypes.contains a then
    (some (.error (.validationError ("Invalid annotation type " ++ a ++
      "; allowed values: " ++ String.intercalate ", " annotationTypes ++ "."))), [])
  else
    let evInit := Event.request ("/detectors/" ++ detectorId ++ "/training_rasters/" ++
      rasterId ++ "/" ++ a ++ "/upload/bulk/") "POST"
    match checkResponse srv.initiate with
    | .error e => (some (.error e), [evInit])
    | .ok _ =>
      let data := srv.initiate.body
      let uploadUrl := data.upload_url
      let uploadId := data.upload_id
      let evPut := Event.request uploadUrl "PUT"
      match checkResponse srv.transfer with
      | .error e => (some (.error e), [evInit, evPut])
      | .ok _ =>
        let evCommit := Event.request ("/detectors/" ++ detectorId ++
          "/training_rasters/" ++ rasterId ++ "/" ++ a ++ "/upload/bulk/" ++ uploadId ++
          "/commit/") "POST"
        match checkResponse srv.commit with
        | .error e => (some (.error e), [evInit, evPut, evCommit])
        | .ok _ =>
          let cdata := srv.commit.body
          let poll := waitUntilOperationCompletes srv.operations cdata.operation_id
            cdata.poll_interval fuel
          (pollOutcome true poll.1, evInit :: evPut :: evCommit :: poll.2)

/-- A raster-upload server whose storage PUT fails with 500. -/
def srvPutFailR : StagedServer RasterInitBody where
  initiate := { status := 201, bodyText := "",
                body := { upload_url := "https://storage.example.com/u1",
                          raster_id := "raster-1" } }
  transfer := { status := 500, bodyText := "storage unavailable", body := () }
  commit := { status := 201, bodyText := "",
              body := { operation_id := "op-5", poll_interval := 1 } }
  operations := fun _ => { status := 200, bodyText := "", body := { status := "success" } }

/-- A detection-area / annotation server whose storage PUT fails with 503. -/
def srvPutFailU : StagedServer UploadInitBody where
  initiate := { status := 201, bodyText := "",
                body := { upload_url := "https://storage.example.com/u2",
                          upload_id := "upload-1" } }
  transfer := { status := 503, bodyText := "unavailable", body := () }
  commit := { status := 201, bodyText := "",
              body := { operation_id := "op-6", poll_interval := 1 } }
  operations := fun _ => { status := 200, bodyText := "", body := { status := "success" } }

/-- A raster-upload server whose initiate response is a 403 (but whose
body, as stored, still parses). -/
def srvInit403 : StagedServer RasterInitBody where
  initiate := { status := 403, bodyText := "Forbidden",
                body := { upload_url := "https://storage.example.com/u1",
                          raster_id := "raster-1" } }
  transfer := { status := 200, bodyText := "", body := () }
  commit := { status := 201, bodyText := "",
              body := { operation_id := "op-9", poll_interval := 1 } }
  operations := fun _ => { status := 200, bodyText := "", body := { status := "success" } }

/-- JSON body of a paginated listing endpoint: the `results` list and
the truthiness of the `next` field (`false` = absent). -/
structure PageBody (α : Type) where
  results : List α
  next : Bool
  deriving DecidableEq, Repr

/-- The `do … while (pageNum > 0)` loop shared verbatim by `listRasters`
and `listDetectors`: request `basePath ++ pageNum`, check the
response, append `data.results` to the accumulator, and continue with
`pageNum + 1` while `data.next` is truthy.  `server n` answers the query
with `page_number=n`; fuel bounds the unfolding (`none` = still
looping). -/
def listLoop {α : Type} (basePath : String) (server : Nat → Response (PageBody α)) :
    Nat → Nat → List α → Option (Except JsError (List α)) × List Event
  | 0, _, _ => (none, [])
  | fuel + 1, pageNum, acc =>
    let ev := Event.request (basePath ++ toString pageNum) "GET"
    let r := server pageNum
    match checkResponse r with
    | .error e => (some (.error e), [ev])
    | .ok _ =>
      let acc2 := acc ++ r.body.results
      if r.body.next then
        let rest := listLoop basePath server fuel (pageNum + 1) acc2
        (rest.1, ev :: rest.2)
      else
        (some (.ok acc2), [ev])

/-- Embedding of `listRasters` from the source: the loop starting at `pageNum = 1`
on `/rasters/?page_number=N`. -/
def listRasters {α : Type} (server : Nat → Response (PageBody α)) (fuel : Nat) :
    Option (Except JsError (List α)) × List Event :=
  listLoop "/rasters/?page_number=" server fuel 1 []

/-- Embedding of `listDetectors` from the source: the same loop on
`/detectors/?page_number=N`. -/
def listDetectors {α : Type} (server : Nat → Response (PageBody α)) (fuel : Nat) :
    Option (Except JsError (List α)) × List Event :=
  listLoop "/detectors/?page_number=" server fuel 1 []

/-- A concrete three-page listing: pages 1 and 2 carry `next`, page 3
does not. -/
def srvPages : Nat → Response (PageBody String) := fun n =>
  match n with
  | 1 => { status := 200, bodyText := "", body := { results := ["r1", "r2"], next := true } }
  | 2 => { status := 200, bodyText := "", body := { results := ["r3"], next := true } }
  | _ => { status := 200, bodyText := "", body := { results := ["r4", "r5"], next := false } }

/-- The allowed detection types of `createDetector` / `editDetector`. -/
def detectionTypes : List String := ["count", "segmentation"]

/-- The allowed output types of `createDetector` / `editDetector`. -/
def outputTypes : List String := ["polygon", "bbox"]

/-- JS truthiness of an optional string argument: `undefined` and the
empty string are falsy. -/
def strTruthy : Option String → Bool
  | none => false
  | some s => s ≠ ""

/-- JS truthiness of an optional number argument: `undefined` and `0`
are falsy. -/
def numTruthy : Option Rat → Bool
  | none => false
  | some q => q ≠ 0

/-- The fully-populated `configuration` object sent by `createDetector`. -/
structure CreateConfig where
  detection_type : String
  output_type : String
  training_steps : Rat
  deriving DecidableEq, Repr

/-- The request body sent by `createDetector`. -/
structure CreateDetectorBody where
  name : String
  configuration : CreateConfig
  deriving DecidableEq, Repr

/-- JSON body of `POST /detectors/`: the created detector's id. -/
structure CreateBody where
  id : String
  deriving DecidableEq, Repr

/-- Embedding of `createDetector` from the source: lowercase `detectionType` and
`outputType`, validate them against the allowed lists and
`trainingSteps` against `[500, 40 * 1000]` (throwing `ValidationError`
before any request), then POST `/detectors/` and return `data['id']`.
The `.ok` result also carries the body that was sent. -/
def createDetector (srv : Response CreateBody) (name detectionType outputType : String)
    (trainingSteps : Rat) : Except JsError (CreateDetectorBody × String) × List Event :=
  let dt := jsToLower detectionType
  let ot := jsToLower outputType
  if !detectionTypes.contains dt then
    (.error (.validationError ("Invalid detector type " ++ dt ++ "; allowed values: " ++
      String.intercalate ", " detectionTypes ++ ".")), [])
  else if !outputTypes.contains ot then
    (.error (.validationError ("Invalid output type " ++ ot ++ "; allowed values: " ++
      String.intercalate ", " outputTypes ++ ".")), [])
  else if trainingSteps < 500 ∨ trainingSteps > 40 * 1000 then
    (.error (.validationError ("Training steps value " ++ toString trainingSteps ++
      " is outside range [" ++ toString (500 : Rat) ++ ", " ++ toString (40 * 1000 : Rat)
      ++ "].")), [])
  else
    let body : CreateDetectorBody :=
      { name := name,
        configuration := { detection_type := dt, output_type := ot,
                           training_steps := trainingSteps } }
    let ev := Event.request "/detectors/" "POST"
    match checkResponse srv with
    | .error e => (.error e, [ev])
    | .ok _ => (.ok (body, srv.body.id), [ev])

/-- The partially-populated `configuration` object of `editDetector`. -/
structure EditConfig where
  detection_type : Option String := none
  output_type : Option String := none
  training_steps : Option Rat := none
  deriving DecidableEq, Repr

/-- The `bodyData` object of `editDetector`: `configuration` is only
initialised when a truthy `name` is supplied. -/
structure EditBody where
  name : Option String := none
  configuration : Option EditConfig := none
  deriving DecidableEq, Repr

/-- A JS assignment `bodyData.configuration.f = v`: a `TypeError` when
`bodyData.configuration` is `undefined`. -/
def setConfig (b : EditBody) (fieldName : String) (f : EditConfig → EditConfig) :
    Except JsError EditBody :=
  match b.configuration with
  | none => .error (.typeError ("Cannot set properties of undefined (setting " ++
      fieldName ++ ")"))
  | some c => .ok { b with configuration := some (f c) }

/-- Embedding of `editDetector` from the source: `bodyData = {}`; when `name` is
truthy, set `bodyData.name` and `bodyData.configuration = {}`; each of
the three optional configuration arguments, when truthy, is validated
(throwing `ValidationError`) and then assigned onto
`bodyData.configuration` (a `TypeError` when that object was never
initialised); finally PUT `/detectors/{id}/` and check the response.
The `.ok` result carries the body that was sent. -/
def editDetector (srv : Response Unit) (detectorId : String) (name : Option String)
    (detectionType : Option String) (outputType : Option String)
    (trainingSteps : Option Rat) : Except JsError EditBody × List Event :=
  let b0 : EditBody := {}
  let b1 := if strTruthy name then
      { b0 with name := name, configuration := some {} }
    else b0
  let step2 : Except JsError EditBody :=
    if strTruthy detectionType then
      let dt := jsToLower (detectionType.getD "")
      if !detectionTypes.contains dt then
        .error (.validationError ("Invalid detector type " ++ dt ++ "; allowed values: "
          ++ String.intercalate ", " detectionTypes ++ "."))
      else
        setConfig b1 "detection_type" (fun c => { c with detection_type := some dt })
    else .ok b1
  match step2 with
  | .error e => (.error e, [])
  | .ok b2 =>
    let step3 : Except JsError EditBody :=
      if strTruthy outputType then
        let ot := jsToLower (outputType.getD "")
        if !outputTypes.contains ot then
          .error (.validationError ("Invalid output type " ++ ot ++ "; allowed values: "
            ++ String.intercalate ", " outputTypes ++ "."))
        else
          setConfig b2 "output_type" (fun c => { c with output_type := some ot })
      else .ok b2
    match step3 with
    | .error e => (.error e, [])
    | .ok b3 =>
      let step4 : Except JsError EditBody :=
        if numTruthy trainingSteps then
          let ts := trainingSteps.getD 0
          if ts < 500 ∨ ts > 40 * 1000 then
            .error (.validationError ("Training steps value " ++ toString ts ++
              " is outside range [" ++ toString (500 : Rat) ++ ", " ++
              toString (40 * 1000 : Rat) ++ "]."))
          else
            setConfig b3 "training_steps" (fun c => { c with training_steps := some ts })
        else .ok b3
      match step4 with
      | .error e => (.error e, [])
      | .ok b4 =>
        let ev := Event.request ("/detectors/" ++ detectorId ++ "/") "PUT"
        match checkResponse srv with
        | .error e => (.error e, [ev])
        | .ok _ => (.ok b4, [ev])

/-- A 2xx response with an empty body, for the `PUT /detectors/{id}/`
of `editDetector`. -/
def srvOkUnit : Response Unit := { status := 200, bodyText := "", body := () }

/-- A 2xx response for `POST /detectors/`. -/
def srvCreateOk : Response CreateBody :=
  { status := 201, bodyText := "", body := { id := "det-7" } }

/-- The assignment `this._timeout = timeoutSeconds * 60 * 1000` from the `APIClient`
constructor (identical in both revisions). -/
def clientTimeoutMs (timeoutSeconds : Rat) : Rat := timeoutSeconds * 60 * 1000

/-- The deadline `const timeout = Date.now() + this._timeout` of the poll loop
computed by the compiled revision's `uploadRaster` / `runDetector`. -/
def pollDeadline (now timeoutSeconds : Rat) : Rat := now + clientTimeoutMs timeoutSeconds

/-- Modelled from the spec: the constructor documents `timeoutSeconds`
as "Max number of seconds after which an operation times out", so the
documented deadline offset in milliseconds would be
`timeoutSeconds * 1000`. -/
def documentedTimeoutMs (timeoutSeconds : Rat) : Rat := timeoutSeconds * 1000

theorem requestCount_midTrace (operationId : String) (pollInterval : Rat) (n : Nat) :
    requestCount (midTrace operationId pollInterval n) = n + 1 := by
  induction n with
  | zero => rfl
  | succ n ih => simp [midTrace, requestCount, ih]

theorem waitLoop_success (server : Nat → Response OpBody) (operationId : String)
    (pollInterval : Rat) :
    ∀ (n k fuel : Nat), n < fuel →
      (∀ j, j < n → nonTerminal (server (k + j))) →
      (server (k + n)).ok = true →
      (server (k + n)).body.status = "success" →
      waitLoop server operationId pollInterval fuel k =
        (some PollResult.completed, midTrace operationId pollInterval n) := by
  intro n
  induction n with
  | zero =>
    intro k fuel hfuel _ hok hst
    match fuel, hfuel with
    | fuel + 1, _ =>
      rw [Nat.add_zero] at hok hst
      simp [waitLoop, checkResponse, hok, hst, midTrace]
  | succ n ih =>
    intro k fuel hfuel hnt hok hst
    match fuel, hfuel with
    | fuel + 1, hfuel =>
      obtain ⟨h0ok, h0s, h0f⟩ := hnt 0 (Nat.succ_pos n)
      rw [Nat.add_zero] at h0ok h0s h0f
      have ihres := ih (k + 1) fuel (Nat.lt_of_succ_lt_succ hfuel)
        (fun j hj => by
          have h := hnt (j + 1) (Nat.succ_lt_succ hj)
          rwa [show k + (j + 1) = k + 1 + j by omega] at h)
        (by rwa [show k + 1 + n = k + (n + 1) by omega])
        (by rwa [show k + 1 + n = k + (n + 1) by omega])
      simp [waitLoop, checkResponse, h0ok, h0s, h0f, ihres, midTrace]

theorem waitLoop_failed (server : Nat → Response OpBody) (operationId : String)
    (pollInterval : Rat) :
    ∀ (n k fuel : Nat), n < fuel →
      (∀ j, j < n → nonTerminal (server (k + j))) →
      (server (k + n)).ok = true →
      (server (k + n)).body.status = "failed" →
      waitLoop server operationId pollInterval fuel k =
        (some (PollResult.threw
          (JsError.apiError ("Operation " ++ operationId ++ " failed.") "")),
          midTrace operationId pollInterval n) := by
  intro n
  induction n with
  | zero =>
    intro k fuel hfuel _ hok hst
    match fuel, hfuel with
    | fuel + 1, _ =>
      rw [Nat.add_zero] at hok hst
      simp [waitLoop, checkResponse, hok, hst, midTrace]
  | succ n ih =>
    intro k fuel hfuel hnt hok hst
    match fuel, hfuel with
    | fuel + 1, hfuel =>
      obtain ⟨h0ok, h0s, h0f⟩ := hnt 0 (Nat.succ_pos n)
      rw [Nat.add_zero] at h0ok h0s h0f
      have ihres := ih (k + 1) fuel (Nat.lt_of_succ_lt_succ hfuel)
        (fun j hj => by
          have h := hnt (j + 1) (Nat.succ_lt_succ hj)
          rwa [show k + (j + 1) = k + 1 + j by omega] at h)
        (by rwa [show k + 1 + n = k + (n + 1) by omega])
        (by rwa [show k + 1 + n = k + (n + 1) by omega])
      simp [waitLoop, checkResponse, h0ok, h0s, h0f, ihres, midTrace]

theorem waitLoop_alwaysRunning (operationId : String) (pollInterval : Rat) :
    ∀ fuel k, (waitLoop alwaysRunning operationId pollInterval fuel k).1 = none ∧
      requestCount (waitLoop alwaysRunning operationId pollInterval fuel k).2 = fuel := by
  intro fuel
  induction fuel with
  | zero => intro k; exact ⟨rfl, rfl⟩
  | succ fuel ih =>
    intro k
    have h := ih (k + 1)
    simp [waitLoop, alwaysRunning, checkResponse, Response.ok, requestCount, h.1, h.2]

/-- C1: the claim says every poll loop is deadline-bounded and
`_waitUntilOperationCompletes` fails with a TimedOut condition on an
infinite sequence of non-terminal responses.  The source loop is
`while (true)` and never consults the client's stored `_timeout`: against
a server that always answers a 2xx `running`, the loop is still running
after any number `fuel` of iterations (result `none`), having issued
`fuel` status queries — it neither returns nor throws any error, timeout
or otherwise. -/
theorem waitUntilOperationCompletes_never_times_out (fuel : Nat) :
    (waitUntilOperationCompletes alwaysRunning "op-1" 1 fuel).1 = none ∧
    requestCount (waitUntilOperationCompletes alwaysRunning "op-1" 1 fuel).2 = fuel := by
  have h := waitLoop_alwaysRunning "op-1" 1 fuel 0
  exact ⟨h.1, by simpa [waitUntilOperationCompletes, requestCount] using h.2⟩

/-- C2: polling a server that answers a non-terminal 2xx status for the
first `N` queries and `success` on query `N`, the poller returns normally
with exactly `N + 1` status queries, sleeping `pollInterval * 0.1` before
the first query and the full `pollInterval` between consecutive
queries. -/
theorem waitUntilOperationCompletes_success_spec (server : Nat → Response OpBody)
    (operationId : String) (pollInterval : Rat) (N fuel : Nat) (hfuel : N < fuel)
    (hnt : ∀ j, j < N → nonTerminal (server j))
    (hok : (server N).ok = true) (hst : (server N).body.status = "success") :
    waitUntilOperationCompletes server operationId pollInterval fuel =
      (some PollResult.completed,
        Event.sleep (pollInterval * (1 / 10)) ::
          midTrace operationId pollInterval N) ∧
    requestCount (waitUntilOperationCompletes server operationId pollInterval fuel).2 =
      N + 1 := by
  have h := waitLoop_success server operationId pollInterval N 0 fuel hfuel
    (fun j hj => by simpa using hnt j hj) (by simpa using hok) (by simpa using hst)
  constructor
  · simp [waitUntilOperationCompletes, h]
  · simp [waitUntilOperationCompletes, h, requestCount, requestCount_midTrace]

/-- Witness for C2 at `N = 2`: two `running` answers then `success`,
with `pollInterval = 4`: three queries, an initial sleep of `4 * (1/10)`
and a sleep of `4` between consecutive queries. -/
theorem waitUntilOperationCompletes_success_spec_witness :
    waitUntilOperationCompletes serverTwoRunningThenSuccess "op-2" 4 5 =
      (some PollResult.completed,
        Event.sleep (4 * (1 / 10)) :: midTrace "op-2" 4 2) ∧
    requestCount (waitUntilOperationCompletes serverTwoRunningThenSuccess "op-2" 4 5).2 =
      2 + 1 :=
  waitUntilOperationCompletes_success_spec serverTwoRunningThenSuccess "op-2" 4 2 5
    (by decide)
    (fun j hj => by
      simp only [serverTwoRunningThenSuccess, if_pos hj]
      decide)
    (by decide) (by decide)

/-- C3: polling a server whose query `N` (after `N` non-terminal 2xx
answers) returns 2xx `failed`, the poller throws the `APIError` whose
message is `"Operation " ++ operationId ++ " failed."` — naming the
operation id — immediately: the trace ends at that status query (the
last event is the request; no further query and no further sleep), with
exactly `N + 1` queries issued. -/
theorem waitUntilOperationCompletes_failed_spec (server : Nat → Response OpBody)
    (operationId : String) (pollInterval : Rat) (N fuel : Nat) (hfuel : N < fuel)
    (hnt : ∀ j, j < N → nonTerminal (server j))
    (hok : (server N).ok = true) (hst : (server N).body.status = "failed") :
    waitUntilOperationCompletes server operationId pollInterval fuel =
      (some (PollResult.threw
        (JsError.apiError ("Operation " ++ operationId ++ " failed.") "")),
        Event.sleep (pollInterval * (1 / 10)) ::
          midTrace operationId pollInterval N) ∧
    requestCount (waitUntilOperationCompletes server operationId pollInterval fuel).2 =
      N + 1 ∧
    (waitUntilOperationCompletes server operationId pollInterval fuel).2.getLast? =
      some (Event.request ("/operations/" ++ operationId ++ "/") "GET") := by
  have h := waitLoop_failed server operationId pollInterval N 0 fuel hfuel
    (fun j hj => by simpa using hnt j hj) (by simpa using hok) (by simpa using hst)
  refine ⟨by simp [waitUntilOperationCompletes, h], ?_, ?_⟩
  · simp [waitUntilOperationCompletes, h, requestCount, requestCount_midTrace]
  · have hlast : ∀ (m : Nat) (e : Event),
        (e :: midTrace operationId pollInterval m).getLast? =
          some (Event.request ("/operations/" ++ operationId ++ "/") "GET") := by
      intro m
      induction m with
      | zero => intro e; rfl
      | succ m ih =>
        intro e
        simpa [midTrace, List.getLast?_cons_cons] using ih (Event.sleep pollInterval)
    simp only [waitUntilOperationCompletes, h]
    exact hlast N _

/-- Witness for C3 at `N = 1`: one `running` answer then `failed` for
operation `op-3`. -/
theorem waitUntilOperationCompletes_failed_spec_witness :
    waitUntilOperationCompletes serverOneRunningThenFailed "op-3" 2 3 =
      (some (PollResult.threw
        (JsError.apiError ("Operation " ++ "op-3" ++ " failed.") "")),
        Event.sleep (2 * (1 / 10)) :: midTrace "op-3" 2 1) ∧
    requestCount (waitUntilOperationCompletes serverOneRunningThenFailed "op-3" 2 3).2 =
      1 + 1 ∧
    (waitUntilOperationCompletes serverOneRunningThenFailed "op-3" 2 3).2.getLast? =
      some (Event.request ("/operations/" ++ "op-3" ++ "/") "GET") :=
  waitUntilOperationCompletes_failed_spec serverOneRunningThenFailed "op-3" 2 1 3
    (by decide)
    (fun j hj => by
      simp only [serverOneRunningThenFailed, if_pos hj]
      decide)
    (by decide) (by decide)

theorem checkResponse_of_not_ok {α : Type} (r : Response α) (h : r.ok = false) :
    checkResponse r =
      .error (.apiError ("Error from API: status code " ++ toString r.status) r.bodyText) := by
  simp [checkResponse, h]

theorem checkResponse_of_ok {α : Type} (r : Response α) (h : r.ok = true) :
    checkResponse r = .ok () := by
  simp [checkResponse, h]

/-- C4: in each staged-upload flow (`uploadRaster`,
`setRasterDetectionAreaFromFile`, `setAnnotations`), a non-2xx storage
PUT makes the flow fail with the `ApiError` produced by `checkResponse`
on the PUT response, and the full trace is exactly the initiate request
followed by the PUT — the commit endpoint receives zero calls and no
polling happens.  Moreover, in every execution of each flow the trace is
one of the strictly sequential prefixes
initiate · transfer · commit · polling, so the transfer is only issued
after the initiate, the commit only after the transfer, and polling only
after the commit. -/
theorem stagedUpload_put_failure_and_ordering
    (srvR : StagedServer RasterInitBody) (srvD srvA : StagedServer UploadInitBody)
    (rasterId detectorId rasterId2 annotationType : String) (fuel : Nat)
    (hR : srvR.transfer.ok = false) (hD : srvD.transfer.ok = false)
    (hA : srvA.transfer.ok = false)
    (hDi : srvD.initiate.ok = true) (hAi : srvA.initiate.ok = true)
    (hAt : annotationTypes.contains (jsToLower annotationType) = true) :
    (uploadRaster srvR fuel =
      (some (.error (.apiError ("Error from API: status code " ++
          toString srvR.transfer.status) srvR.transfer.bodyText)),
        [Event.request "/rasters/upload/file/" "POST",
         Event.request srvR.initiate.body.upload_url "PUT"])) ∧
    (setRasterDetectionAreaFromFile srvD rasterId fuel =
      (some (.error (.apiError ("Error from API: status code " ++
          toString srvD.transfer.status) srvD.transfer.bodyText)),
        [Event.request ("/rasters/" ++ rasterId ++ "/detection_areas/upload/file/") "POST",
         Event.request srvD.initiate.body.upload_url "PUT"])) ∧
    (setAnnotations srvA detectorId rasterId2 annotationType fuel =
      (some (.error (.apiError ("Error from API: status code " ++
          toString srvA.transfer.status) srvA.transfer.bodyText)),
        [Event.request ("/detectors/" ++ detectorId ++ "/training_rasters/" ++
            rasterId2 ++ "/" ++ jsToLower annotationType ++ "/upload/bulk/") "POST",
         Event.request srvA.initiate.body.upload_url "PUT"])) ∧
    (∀ (srv : StagedServer RasterInitBody) (f : Nat),
      (uploadRaster srv f).2 =
        [Event.request "/rasters/upload/file/" "POST",
         Event.request srv.initiate.body.upload_url "PUT"] ∨
      (uploadRaster srv f).2 =
        [Event.request "/rasters/upload/file/" "POST",
         Event.request srv.initiate.body.upload_url "PUT",
         Event.request ("/rasters/" ++ srv.initiate.body.raster_id ++ "/commit/") "POST"] ∨
      (uploadRaster srv f).2 =
        Event.request "/rasters/upload/file/" "POST" ::
        Event.request srv.initiate.body.upload_url "PUT" ::
        Event.request ("/rasters/" ++ srv.initiate.body.raster_id ++ "/commit/") "POST" ::
        (waitUntilOperationCompletes srv.operations srv.commit.body.operation_id
          srv.commit.body.poll_interval f).2) ∧
    (∀ (srv : StagedServer UploadInitBody) (rid : String) (f : Nat),
      (setRasterDetectionAreaFromFile srv rid f).2 =
        [Event.request ("/rasters/" ++ rid ++ "/detection_areas/upload/file/") "POST"] ∨
      (setRasterDetectionAreaFromFile srv rid f).2 =
        [Event.request ("/rasters/" ++ rid ++ "/detection_areas/upload/file/") "POST",
         Event.request srv.initiate.body.upload_url "PUT"] ∨
      (setRasterDetectionAreaFromFile srv rid f).2 =
        [Event.request ("/rasters/" ++ rid ++ "/detection_areas/upload/file/") "POST",
         Event.request srv.initiate.body.upload_url "PUT",
         Event.request ("/rasters/" ++ rid ++ "/detection_areas/upload/" ++
           srv.initiate.body.upload_id ++ "/commit/") "POST"] ∨
      (setRasterDetectionAreaFromFile srv rid f).2 =
        Event.request ("/rasters/" ++ rid ++ "/detection_areas/upload/file/") "POST" ::
        Event.request srv.initiate.body.upload_url "PUT" ::
        Event.request ("/rasters/" ++ rid ++ "/detection_areas/upload/" ++
          srv.initiate.body.upload_id ++ "/commit/") "POST" ::
        (waitUntilOperationCompletes srv.operations srv.commit.body.operation_id
          srv.commit.body.poll_interval f).2) ∧
    (∀ (srv : StagedServer UploadInitBody) (d r a : String) (f : Nat),
      (setAnnotations srv d r a f).2 = [] ∨
      (setAnnotations srv d r a f).2 =
        [Event.request ("/detectors/" ++ d ++ "/training_rasters/" ++ r ++ "/" ++
          jsToLower a ++ "/upload/bulk/") "POST"] ∨
      (setAnnotations srv d r a f).2 =
        [Event.request ("/detectors/" ++ d ++ "/training_rasters/" ++ r ++ "/" ++
          jsToLower a ++ "/upload/bulk/") "POST",
         Event.request srv.initiate.body.upload_url "PUT"] ∨
      (setAnnotations srv d r a f).2 =
        [Event.request ("/detectors/" ++ d ++ "/training_rasters/" ++ r ++ "/" ++
          jsToLower a ++ "/upload/bulk/") "POST",
         Event.request srv.initiate.body.upload_url "PUT",
         Event.request ("/detectors/" ++ d ++ "/training_rasters/" ++ r ++ "/" ++
           jsToLower a ++ "/upload/bulk/" ++ srv.initiate.body.upload_id ++ "/commit/")
           "POST"] ∨
      (setAnnotations srv d r a f).2 =
        Event.request ("/detectors/" ++ d ++ "/training_rasters/" ++ r ++ "/" ++
          jsToLower a ++ "/upload/bulk/") "POST" ::
        Event.request srv.initiate.body.upload_url "PUT" ::
        Event.request ("/detectors/" ++ d ++ "/training_rasters/" ++ r ++ "/" ++
          jsToLower a ++ "/upload/bulk/" ++ srv.initiate.body.upload_id ++ "/commit/")
          "POST" ::
        (waitUntilOperationCompletes srv.operations srv.commit.body.operation_id
          srv.commit.body.poll_interval f).2) := by
  refine ⟨?_, ?_, ?_, ?_, ?_, ?_⟩
  · simp [uploadRaster, checkResponse_of_not_ok srvR.transfer hR]
  · simp [setRasterDetectionAreaFromFile, checkResponse_of_ok srvD.initiate hDi,
      checkResponse_of_not_ok srvD.transfer hD]
  · have hAt' : jsToLower annotationType ∈ annotationTypes := by simpa using hAt
    simp [setAnnotations, hAt', checkResponse_of_ok srvA.initiate hAi,
      checkResponse_of_not_ok srvA.transfer hA]
  · intro srv f
    simp only [uploadRaster]
    rcases hT : checkResponse srv.transfer with e | u
    · simp [hT]
    · rcases hC : checkResponse srv.commit with e | u
      · simp [hT, hC]
      · simp [hT, hC]
  · intro srv rid f
    simp only [setRasterDetectionAreaFromFile]
    rcases hI : checkResponse srv.initiate with e | u
    · simp [hI]
    · rcases hT : checkResponse srv.transfer with e | u
      · simp [hI, hT]
      · rcases hC : checkResponse srv.commit with e | u
        · simp [hI, hT, hC]
        · simp [hI, hT, hC]
  · intro srv d r a f
    simp only [setAnnotations]
    by_cases hv : jsToLower a ∈ annotationTypes
    · rcases hI : checkResponse srv.initiate with e | u
      · simp [hv, hI]
      · rcases hT : checkResponse srv.transfer with e | u
        · simp [hv, hI, hT]
        · rcases hC : checkResponse srv.commit with e | u
          · simp [hv, hI, hT, hC]
          · simp [hv, hI, hT, hC]
    · simp [hv]

/-- Witness for C4: concrete servers with failing storage PUTs; each
flow returns the `ApiError` of the PUT and its trace stops at the PUT —
no commit request, no polling. -/
theorem stagedUpload_put_failure_and_ordering_witness :
    (uploadRaster srvPutFailR 3 =
      (some (.error (.apiError "Error from API: status code 500" "storage unavailable")),
        [Event.request "/rasters/upload/file/" "POST",
         Event.request "https://storage.example.com/u1" "PUT"])) ∧
    (setRasterDetectionAreaFromFile srvPutFailU "raster-9" 3 =
      (some (.error (.apiError "Error from API: status code 503" "unavailable")),
        [Event.request "/rasters/raster-9/detection_areas/upload/file/" "POST",
         Event.request "https://storage.example.com/u2" "PUT"])) ∧
    (setAnnotations srvPutFailU "det-1" "raster-2" "Outline" 3 =
      (some (.error (.apiError "Error from API: status code 503" "unavailable")),
        [Event.request "/detectors/det-1/training_rasters/raster-2/outline/upload/bulk/"
           "POST",
         Event.request "https://storage.example.com/u2" "PUT"])) := by
  have h := stagedUpload_put_failure_and_ordering srvPutFailR srvPutFailU srvPutFailU
    "raster-9" "det-1" "raster-2" "Outline" 3 (by decide) (by decide) (by decide)
    (by decide) (by decide) (by decide)
  exact ⟨h.1, h.2.1, h.2.2.1⟩

theorem Response.ok_iff {α : Type} (r : Response α) :
    r.ok = true ↔ (200 ≤ r.status ∧ r.status ≤ 299) := by
  simp [Response.ok]

theorem checkResponse_ok_iff {α : Type} (r : Response α) :
    checkResponse r = .ok () ↔ (200 ≤ r.status ∧ r.status ≤ 299) := by
  rw [← Response.ok_iff]
  cases h : r.ok
  · simp [checkResponse, h]
  · simp [checkResponse, h]

/-- C5 (code bug): `checkResponse` does classify a response as
successful exactly when its status code is 2xx, and on failure the
`ApiError` carries the status code and the body text; but `uploadRaster`
never calls it on the initiate response.  With an initiate response of
status 403, `checkResponse` would yield the `ApiError` — yet the flow
parses the unchecked body, issues the storage PUT and the commit, and
returns the raster id as if nothing failed. -/
theorem uploadRaster_initiate_unchecked :
    (∀ (α : Type) (r : Response α),
      (checkResponse r = .ok ()) ↔ (200 ≤ r.status ∧ r.status ≤ 299)) ∧
    (∀ (α : Type) (r : Response α),
      checkResponse r = .ok () ∨
      checkResponse r = .error (.apiError
        ("Error from API: status code " ++ toString r.status) r.bodyText)) ∧
    checkResponse srvInit403.initiate =
      .error (.apiError "Error from API: status code 403" "Forbidden") ∧
    uploadRaster srvInit403 1 =
      (some (.ok "raster-1"),
        [Event.request "/rasters/upload/file/" "POST",
         Event.request "https://storage.example.com/u1" "PUT",
         Event.request "/rasters/raster-1/commit/" "POST",
         Event.sleep (1 * (1 / 10)),
         Event.request "/operations/op-9/" "GET"]) := by
  refine ⟨fun α r => checkResponse_ok_iff r, fun α r => ?_, rfl, rfl⟩
  cases h : r.ok
  · exact Or.inr (checkResponse_of_not_ok r h)
  · exact Or.inl (checkResponse_of_ok r h)

theorem listLoop_spec {α : Type} (basePath : String)
    (server : Nat → Response (PageBody α)) (k : Nat)
    (hserv : ∀ i, 1 ≤ i → i ≤ k →
      (server i).ok = true ∧ ((server i).body.next = true ↔ i < k)) :
    ∀ (fuel p : Nat) (acc : List α), 1 ≤ p → p ≤ k → k - p < fuel →
      listLoop basePath server fuel p acc =
        (some (.ok (acc ++ ((List.range' p (k + 1 - p)).map
            (fun i => (server i).body.results)).flatten)),
         (List.range' p (k + 1 - p)).map
            (fun i => Event.request (basePath ++ toString i) "GET")) := by
  intro fuel
  induction fuel with
  | zero => intro p acc h1 h2 h3; omega
  | succ fuel ih =>
    intro p acc h1 h2 h3
    obtain ⟨hok, hnext⟩ := hserv p h1 h2
    have hrange : k + 1 - p = (k - p) + 1 := by omega
    rw [hrange]
    by_cases hpk : p < k
    · have hnext' : (server p).body.next = true := hnext.mpr hpk
      have ihres := ih (p + 1) (acc ++ (server p).body.results) (by omega) (by omega)
        (by omega)
      rw [show k + 1 - (p + 1) = k - p by omega] at ihres
      have hkp : k - p = (k - (p + 1)) + 1 := by omega
      simp only [listLoop, checkResponse_of_ok _ hok, hnext', if_true, ihres]
      rw [show k - p = (k - (p + 1)) + 1 from hkp]
      simp [List.range', List.append_assoc, show k - (p + 1) + 1 = k - p by omega]
    · have hpk' : p = k := by omega
      have hnext' : (server p).body.next = false := by
        cases hx : (server p).body.next
        · rfl
        · exact absurd (hnext.mp hx) (by omega)
      simp [listLoop, checkResponse_of_ok _ hok, hnext', show k - p = 0 by omega,
        List.range']

/-- C8: for a finite sequence of pages `1..k` — every page 2xx, the
`next` marker present exactly on the pages before the last —
`listRasters` and `listDetectors` request pages in increasing
`page_number` order starting at 1, follow `next` until absent, and
return exactly the concatenation of the pages' `results` lists in
server-given order. -/
theorem listRasters_listDetectors_paginate {α : Type}
    (server : Nat → Response (PageBody α)) (k fuel : Nat) (hk : 1 ≤ k)
    (hfuel : k ≤ fuel)
    (hserv : ∀ i, 1 ≤ i → i ≤ k →
      (server i).ok = true ∧ ((server i).body.next = true ↔ i < k)) :
    listRasters server fuel =
      (some (.ok (((List.range' 1 k).map (fun i => (server i).body.results)).flatten)),
        (List.range' 1 k).map
          (fun i => Event.request ("/rasters/?page_number=" ++ toString i) "GET")) ∧
    listDetectors server fuel =
      (some (.ok (((List.range' 1 k).map (fun i => (server i).body.results)).flatten)),
        (List.range' 1 k).map
          (fun i => Event.request ("/detectors/?page_number=" ++ toString i) "GET")) := by
  have h1 := listLoop_spec "/rasters/?page_number=" server k hserv fuel 1 [] le_rfl hk
    (by omega)
  have h2 := listLoop_spec "/detectors/?page_number=" server k hserv fuel 1 [] le_rfl hk
    (by omega)
  rw [show k + 1 - 1 = k by omega] at h1 h2
  exact ⟨by simpa [listRasters] using h1, by simpa [listDetectors] using h2⟩

/-- Witness for C8 on the three-page server: both listings visit pages
1, 2, 3 and return the five results in order. -/
theorem listRasters_listDetectors_paginate_witness :
    listRasters srvPages 3 =
      (some (.ok (((List.range' 1 3).map (fun i => (srvPages i).body.results)).flatten)),
        (List.range' 1 3).map
          (fun i => Event.request ("/rasters/?page_number=" ++ toString i) "GET")) ∧
    listDetectors srvPages 3 =
      (some (.ok (((List.range' 1 3).map (fun i => (srvPages i).body.results)).flatten)),
        (List.range' 1 3).map
          (fun i => Event.request ("/detectors/?page_number=" ++ toString i) "GET")) :=
  listRasters_listDetectors_paginate srvPages 3 3 (by decide) (by decide)
    (fun i h1 h2 => by interval_cases i <;> exact ⟨rfl, by decide⟩)

/-- C6 counterexample: the claim says a supplied `detectionType` whose
lowercase form is in the allowed set is "accepted and sent" by
`editDetector`; but with no (falsy) `name`, supplying the valid value
`"count"` makes `editDetector` throw a `TypeError` (assigning onto the
never-initialised `bodyData.configuration`) — nothing is sent. -/
theorem editDetector_valid_type_name_missing :
    editDetector srvOkUnit "d1" none (some "count") none none =
      (.error (.typeError "Cannot set properties of undefined (setting detection_type)"),
        []) := by
  rfl

/-- C6 (amended): `createDetector` rejects every `detectionType` whose
lowercase form is not allowed, with a `ValidationError` naming the value
and the allowed set, before any request, and sends an allowed value
lowercased; `editDetector` does the same for every supplied truthy
`detectionType`, but the accepted value is only sent when a truthy
`name` is also supplied (otherwise the assignment `TypeError` of the
counterexample fires). -/
theorem detectionType_validation :
    (∀ (srv : Response CreateBody) (name dt ot : String) (ts : Rat),
      detectionTypes.contains (jsToLower dt) = false →
      createDetector srv name dt ot ts =
        (.error (.validationError ("Invalid detector type " ++ jsToLower dt ++
          "; allowed values: " ++ String.intercalate ", " detectionTypes ++ ".")), [])) ∧
    (∀ (srv : Response CreateBody) (name dt ot : String) (ts : Rat),
      detectionTypes.contains (jsToLower dt) = true →
      outputTypes.contains (jsToLower ot) = true →
      ¬(ts < 500 ∨ ts > 40 * 1000) →
      srv.ok = true →
      createDetector srv name dt ot ts =
        (.ok ({ name := name,
                configuration := { detection_type := jsToLower dt,
                                   output_type := jsToLower ot,
                                   training_steps := ts } }, srv.body.id),
          [Event.request "/detectors/" "POST"])) ∧
    (∀ (srv : Response Unit) (id : String) (name : Option String) (dt : String)
        (ot : Option String) (ts : Option Rat),
      dt ≠ "" →
      detectionTypes.contains (jsToLower dt) = false →
      editDetector srv id name (some dt) ot ts =
        (.error (.validationError ("Invalid detector type " ++ jsToLower dt ++
          "; allowed values: " ++ String.intercalate ", " detectionTypes ++ ".")), [])) ∧
    (∀ (srv : Response Unit) (id name dt : String),
      name ≠ "" → dt ≠ "" →
      detectionTypes.contains (jsToLower dt) = true →
      srv.ok = true →
      editDetector srv id (some name) (some dt) none none =
        (.ok { name := some name,
               configuration := some { detection_type := some (jsToLower dt) } },
          [Event.request ("/detectors/" ++ id ++ "/") "PUT"])) := by
  refine ⟨?_, ?_, ?_, ?_⟩
  · intro srv name dt ot ts h
    have h' : jsToLower dt ∉ detectionTypes := by simpa using h
    simp [createDetector, h']
  · intro srv name dt ot ts h1 h2 h3 h4
    have h1' : jsToLower dt ∈ detectionTypes := by simpa using h1
    have h2' : jsToLower ot ∈ outputTypes := by simpa using h2
    rcases not_or.mp h3 with ⟨h3a, h3b⟩
    simp [createDetector, h1', h2', h3a, h3b, checkResponse_of_ok _ h4]
  · intro srv id name dt ot ts hdt h
    have h' : jsToLower dt ∉ detectionTypes := by simpa using h
    simp [editDetector, strTruthy, hdt, h']
  · intro srv id name dt hname hdt hmem hsrv
    have hmem' : jsToLower dt ∈ detectionTypes := by simpa using hmem
    simp [editDetector, strTruthy, numTruthy, hname, hdt, hmem', setConfig,
      checkResponse_of_ok _ hsrv]

/-- Witness for C6 (amended): a rejected and an accepted instance for
each of `createDetector` and `editDetector`. -/
theorem detectionType_validation_witness :
    createDetector srvCreateOk "n" "Tree" "polygon" 600 =
      (.error (.validationError ("Invalid detector type " ++ jsToLower "Tree" ++
        "; allowed values: " ++ String.intercalate ", " detectionTypes ++ ".")), []) ∧
    createDetector srvCreateOk "n" "Count" "polygon" 600 =
      (.ok ({ name := "n",
              configuration := { detection_type := jsToLower "Count",
                                 output_type := jsToLower "polygon",
                                 training_steps := 600 } }, srvCreateOk.body.id),
        [Event.request "/detectors/" "POST"]) ∧
    editDetector srvOkUnit "d1" (some "n") (some "Tree") none none =
      (.error (.validationError ("Invalid detector type " ++ jsToLower "Tree" ++
        "; allowed values: " ++ String.intercalate ", " detectionTypes ++ ".")), []) ∧
    editDetector srvOkUnit "d1" (some "n") (some "SEGMENTATION") none none =
      (.ok { name := some "n",
             configuration := some { detection_type := some (jsToLower "SEGMENTATION") } },
        [Event.request ("/detectors/" ++ "d1" ++ "/") "PUT"]) := by
  have h := detectionType_validation
  exact ⟨h.1 srvCreateOk "n" "Tree" "polygon" 600 (by decide),
    h.2.1 srvCreateOk "n" "Count" "polygon" 600 (by decide) (by decide)
      (by rw [not_or]; constructor <;> norm_num) (by decide),
    h.2.2.1 srvOkUnit "d1" (some "n") "Tree" none none (by decide) (by decide),
    h.2.2.2 srvOkUnit "d1" "n" "SEGMENTATION" (by decide) (by decide) (by decide)
      (by decide)⟩

/-- C7 counterexample: `trainingSteps = 0` is outside `[500, 40000]` and
is supplied, yet `editDetector` does not reject it: `0` is JS-falsy, so
the field is skipped and the PUT request is issued. -/
theorem editDetector_zero_training_steps_not_rejected :
    editDetector srvOkUnit "d1" (some "n") none none (some 0) =
      (.ok { name := some "n", configuration := some {} },
        [Event.request "/detectors/d1/" "PUT"]) := by
  rfl

/-- C7 (amended): `createDetector` rejects every `trainingSteps` outside
`[500, 40 * 1000]` and accepts every value inside (so 500 and 40000 are
accepted, 499 and 40001 rejected); `editDetector` does the same for
every supplied NONZERO value, with the accepted value sent only when a
truthy `name` is supplied — but a supplied `trainingSteps` of `0`,
although outside the range, is treated as omitted (JS-falsy) rather
than rejected. -/
theorem trainingSteps_validation :
    (∀ (srv : Response CreateBody) (name dt ot : String) (ts : Rat),
      detectionTypes.contains (jsToLower dt) = true →
      outputTypes.contains (jsToLower ot) = true →
      (ts < 500 ∨ ts > 40 * 1000) →
      createDetector srv name dt ot ts =
        (.error (.validationError ("Training steps value " ++ toString ts ++
          " is outside range [" ++ toString (500 : Rat) ++ ", " ++
          toString (40 * 1000 : Rat) ++ "].")), [])) ∧
    (∀ (srv : Response CreateBody) (name dt ot : String) (ts : Rat),
      detectionTypes.contains (jsToLower dt) = true →
      outputTypes.contains (jsToLower ot) = true →
      ¬(ts < 500 ∨ ts > 40 * 1000) →
      srv.ok = true →
      (createDetector srv name dt ot ts).1 =
        .ok ({ name := name,
               configuration := { detection_type := jsToLower dt,
                                  output_type := jsToLower ot,
                                  training_steps := ts } }, srv.body.id)) ∧
    (∀ (srv : Response Unit) (id : String) (name : Option String) (ts : Rat),
      ts ≠ 0 →
      (ts < 500 ∨ ts > 40 * 1000) →
      editDetector srv id name none none (some ts) =
        (.error (.validationError ("Training steps value " ++ toString ts ++
          " is outside range [" ++ toString (500 : Rat) ++ ", " ++
          toString (40 * 1000 : Rat) ++ "].")), [])) ∧
    (∀ (srv : Response Unit) (id name : String) (ts : Rat),
      name ≠ "" → ts ≠ 0 →
      ¬(ts < 500 ∨ ts > 40 * 1000) →
      srv.ok = true →
      editDetector srv id (some name) none none (some ts) =
        (.ok { name := some name,
               configuration := some { training_steps := some ts } },
          [Event.request ("/detectors/" ++ id ++ "/") "PUT"])) ∧
    (∀ (srv : Response Unit) (id : String) (name : Option String),
      editDetector srv id name none none (some 0) =
        editDetector srv id name none none none) := by
  refine ⟨?_, ?_, ?_, ?_, ?_⟩
  · intro srv name dt ot ts h1 h2 h3
    have h1' : jsToLower dt ∈ detectionTypes := by simpa using h1
    have h2' : jsToLower ot ∈ outputTypes := by simpa using h2
    simp [createDetector, h1', h2', h3]
  · intro srv name dt ot ts h1 h2 h3 h4
    have h1' : jsToLower dt ∈ detectionTypes := by simpa using h1
    have h2' : jsToLower ot ∈ outputTypes := by simpa using h2
    rcases not_or.mp h3 with ⟨h3a, h3b⟩
    simp [createDetector, h1', h2', h3a, h3b, checkResponse_of_ok _ h4]
  · intro srv id name ts hts0 hrange
    simp [editDetector, strTruthy, numTruthy, hts0, hrange]
  · intro srv id name ts hname hts0 hrange hsrv
    rcases not_or.mp hrange with ⟨h3a, h3b⟩
    simp [editDetector, strTruthy, numTruthy, hname, hts0, h3a, h3b, setConfig,
      checkResponse_of_ok _ hsrv]
  · intro srv id name
    simp [editDetector, numTruthy]

/-- Witness for C7 (amended) at the boundaries: 499 and 40001 rejected,
500 and 40000 accepted, for both creation and (name-carrying) edit. -/
theorem trainingSteps_validation_witness :
    createDetector srvCreateOk "n" "count" "polygon" 499 =
      (.error (.validationError ("Training steps value " ++ toString (499 : Rat) ++
        " is outside range [" ++ toString (500 : Rat) ++ ", " ++
        toString (40 * 1000 : Rat) ++ "].")), []) ∧
    createDetector srvCreateOk "n" "count" "polygon" 40001 =
      (.error (.validationError ("Training steps value " ++ toString (40001 : Rat) ++
        " is outside range [" ++ toString (500 : Rat) ++ ", " ++
        toString (40 * 1000 : Rat) ++ "].")), []) ∧
    (createDetector srvCreateOk "n" "count" "polygon" 500).1 =
      .ok ({ name := "n",
             configuration := { detection_type := jsToLower "count",
                                output_type := jsToLower "polygon",
                                training_steps := 500 } }, srvCreateOk.body.id) ∧
    (createDetector srvCreateOk "n" "count" "polygon" 40000).1 =
      .ok ({ name := "n",
             configuration := { detection_type := jsToLower "count",
                                output_type := jsToLower "polygon",
                                training_steps := 40000 } }, srvCreateOk.body.id) ∧
    editDetector srvOkUnit "d1" (some "n") none none (some 499) =
      (.error (.validationError ("Training steps value " ++ toString (499 : Rat) ++
        " is outside range [" ++ toString (500 : Rat) ++ ", " ++
        toString (40 * 1000 : Rat) ++ "].")), []) ∧
    editDetector srvOkUnit "d1" (some "n") none none (some 40001) =
      (.error (.validationError ("Training steps value " ++ toString (40001 : Rat) ++
        " is outside range [" ++ toString (500 : Rat) ++ ", " ++
        toString (40 * 1000 : Rat) ++ "].")), []) ∧
    editDetector srvOkUnit "d1" (some "n") none none (some 500) =
      (.ok { name := some "n", configuration := some { training_steps := some 500 } },
        [Event.request ("/detectors/" ++ "d1" ++ "/") "PUT"]) ∧
    editDetector srvOkUnit "d1" (some "n") none none (some 40000) =
      (.ok { name := some "n", configuration := some { training_steps := some 40000 } },
        [Event.request ("/detectors/" ++ "d1" ++ "/") "PUT"]) := by
  have h := trainingSteps_validation
  refine ⟨h.1 srvCreateOk "n" "count" "polygon" 499 (by decide) (by decide)
      (by left; norm_num),
    h.1 srvCreateOk "n" "count" "polygon" 40001 (by decide) (by decide)
      (by right; norm_num),
    h.2.1 srvCreateOk "n" "count" "polygon" 500 (by decide) (by decide)
      (by rw [not_or]; constructor <;> norm_num) (by decide),
    h.2.1 srvCreateOk "n" "count" "polygon" 40000 (by decide) (by decide)
      (by rw [not_or]; constructor <;> norm_num) (by decide),
    h.2.2.1 srvOkUnit "d1" (some "n") 499 (by norm_num) (by left; norm_num),
    h.2.2.1 srvOkUnit "d1" (some "n") 40001 (by norm_num) (by right; norm_num),
    h.2.2.2.1 srvOkUnit "d1" "n" 500 (by decide) (by norm_num)
      (by rw [not_or]; constructor <;> norm_num) (by decide),
    h.2.2.2.1 srvOkUnit "d1" "n" 40000 (by decide) (by norm_num)
      (by rw [not_or]; constructor <;> norm_num) (by decide)⟩

/-- C10 counterexample: `name` is falsy and `outputType` is supplied
with a valid value, so the claim predicts a `TypeError`; but the
invalid `detectionType` is checked first and a `ValidationError` is
thrown instead. -/
theorem editDetector_invalid_first_field_validationError :
    editDetector srvOkUnit "d1" none (some "tree") (some "polygon") none =
      (.error (.validationError
        "Invalid detector type tree; allowed values: count, segmentation."), []) := by
  rfl

/-- C10 (amended): when `name` is falsy, at least one of
`detectionType` / `outputType` / `trainingSteps` is supplied (truthy)
and EVERY supplied one is valid, `editDetector` throws a JS `TypeError`
(assigning a property of the never-initialised
`bodyData.configuration`) before any network request: the trace is
empty and the partial edit is never performed. -/
theorem editDetector_name_missing_typeError
    (srv : Response Unit) (id : String) (name : Option String)
    (dt ot : Option String) (ts : Option Rat)
    (hname : strTruthy name = false)
    (hsome : (strTruthy dt || strTruthy ot || numTruthy ts) = true)
    (hdt : strTruthy dt = true → detectionTypes.contains (jsToLower (dt.getD "")) = true)
    (hot : strTruthy ot = true → outputTypes.contains (jsToLower (ot.getD "")) = true)
    (hts : numTruthy ts = true → ¬(ts.getD 0 < 500 ∨ ts.getD 0 > 40 * 1000)) :
    (editDetector srv id name dt ot ts).2 = [] ∧
    ∃ m, (editDetector srv id name dt ot ts).1 = .error (.typeError m) := by
  cases hd : strTruthy dt
  · cases ho : strTruthy ot
    · cases ht : numTruthy ts
      · simp [hd, ho, ht] at hsome
      · rcases not_or.mp (hts ht) with ⟨h1, h2⟩
        refine ⟨?_, "Cannot set properties of undefined (setting training_steps)", ?_⟩
          <;> simp [editDetector, hname, hd, ho, ht, h1, h2, setConfig]
    · have ho' : jsToLower (ot.getD "") ∈ outputTypes := by simpa using hot ho
      refine ⟨?_, "Cannot set properties of undefined (setting output_type)", ?_⟩
        <;> simp [editDetector, hname, hd, ho, ho', setConfig]
  · have hd' : jsToLower (dt.getD "") ∈ detectionTypes := by simpa using hdt hd
    refine ⟨?_, "Cannot set properties of undefined (setting detection_type)", ?_⟩
      <;> simp [editDetector, hname, hd, hd', setConfig]

/-- Witness for C10 (amended): a valid `detectionType` with no name. -/
theorem editDetector_name_missing_typeError_witness :
    (editDetector srvOkUnit "d2" none (some "count") none none).2 = [] ∧
    ∃ m, (editDetector srvOkUnit "d2" none (some "count") none none).1 =
      .error (.typeError m) :=
  editDetector_name_missing_typeError srvOkUnit "d2" none (some "count") none none
    (by decide) (by decide) (fun _ => by decide) (fun h => by simp [strTruthy] at h)
    (fun h => by simp [numTruthy] at h)

/-- C9: the stored timeout used as the poll-loop deadline is
`t * 60 * 1000` ms — sixty times the documented seconds-to-milliseconds
conversion, i.e. `t` is effectively interpreted as minutes; with the
default `t = 300`, the deadline offset is 18 000 000 ms (300 minutes),
not 300 000 ms. -/
theorem clientTimeout_is_minutes :
    (∀ t : Rat, clientTimeoutMs t = t * 60 * 1000) ∧
    (∀ t : Rat, clientTimeoutMs t = 60 * documentedTimeoutMs t) ∧
    (∀ now t : Rat, pollDeadline now t = now + 60 * documentedTimeoutMs t) ∧
    clientTimeoutMs 300 = 18000000 ∧ documentedTimeoutMs 300 = 300000 := by
  refine ⟨fun t => rfl, fun t => ?_, fun now t => ?_, by norm_num [clientTimeoutMs],
    by norm_num [documentedTimeoutMs]⟩
  · unfold clientTimeoutMs documentedTimeoutMs
    ring
  · unfold pollDeadline clientTimeoutMs documentedTimeoutMs
    ring

end Picterra
